import Mathlib

/-!
Shallow embedding of `src/pdf_to_excel.py` (class `PDFToExcelConverter`),
covering `extract_table_from_page` and `convert_pdf_to_excel`.

External collaborators (pdfplumber, pandas, the filesystem) are modelled as
an explicit environment that records what each external call answers; the
control flow, accumulation, validation, column coercion and logging of the
Python source are translated line by line.
-/

namespace PdfToExcel

/-- Severity of a log line emitted through `self.logger`. -/
inductive LogLevel where
  | info
  | warning
  | error
deriving DecidableEq, Repr

/-- One log line: severity plus message text. -/
structure LogMsg where
  level : LogLevel
  text : String
deriving DecidableEq, Repr

/-- A table row: an ordered list of cell values (pdfplumber yields text cells). -/
abbrev Row := List String

/-- A table: an ordered list of rows. -/
abbrev Table := List Row

/-- Outcome of `page.extract_table()` for one page: it may return a table,
return `None`, or raise an exception (carrying its message). -/
inductive ExtractResult where
  | ok (t : Option Table)
  | err (msg : String)
deriving DecidableEq, Repr

/-- Embedding of `PDFToExcelConverter.extract_table_from_page` (lines 25-34):
`return table if table and len(table) > 0 else None`, with any exception
caught, logged as a warning, and turned into `None`. -/
def extract_table_from_page (r : ExtractResult) : Option Table × List LogMsg :=
  match r with
  | .ok t =>
      (match t with
       | some tab => if tab.isEmpty then none else some tab
       | none => none, [])
  | .err m => (none, [⟨.warning, "Could not extract table from page: " ++ m⟩])

/-- One iteration of the accumulation loop (lines 53-57):
`if table:` then either `all_tables = table` (when `all_tables` is still
empty) or `all_tables.extend(table[1:])`. -/
def accumStep (acc : Table) (frag : Option Table) : Table :=
  match frag with
  | none => acc
  | some t =>
      if t.isEmpty then acc
      else if acc.isEmpty then t
      else acc ++ t.drop 1

/-- The per-page fragments produced by `extract_table_from_page` over the
pages of the document, in page order. -/
def pageFragments (pages : List ExtractResult) : List (Option Table) :=
  pages.map (fun p => (extract_table_from_page p).1)

/-- The warnings emitted by `extract_table_from_page` over all pages. -/
def pageWarnings (pages : List ExtractResult) : List LogMsg :=
  (pages.map (fun p => (extract_table_from_page p).2)).flatten

/-- The value of `all_tables` after the page loop of lines 50-57. -/
def accumTables (pages : List ExtractResult) : Table :=
  (pageFragments pages).foldl accumStep []

/-- Value of an integer literal written as a digit string. -/
def digitsVal (cs : List Char) : Int :=
  cs.foldl (fun n c => 10 * n + (Int.ofNat (c.toNat - '0'.toNat))) 0

/-- Modelled from pandas: element-level numeric parsing done by
`pd.to_numeric`, restricted to integer literals (an optional leading minus
sign followed by at least one digit); other numeric spellings are elided. -/
def parseNum (s : String) : Option Int :=
  match s.data with
  | [] => none
  | '-' :: rest =>
      if rest.isEmpty then none
      else if rest.all Char.isDigit then some (-(digitsVal rest)) else none
  | cs => if cs.all Char.isDigit then some (digitsVal cs) else none

/-- A cell value after the column-typing pass: numeric, or the original text. -/
inductive ColVal where
  | num (n : Int)
  | str (s : String)
deriving DecidableEq, Repr

/-- Modelled from pandas: `pd.to_numeric(col, errors="ignore")` converts the
whole column when every value parses as a number, and otherwise returns the
input unchanged; with `errors="ignore"` a parse failure does not raise. -/
def to_numeric_ignore (col : List String) : List ColVal :=
  if col.all (fun s => (parseNum s).isSome)
  then col.map (fun s => ColVal.num ((parseNum s).getD 0))
  else col.map ColVal.str

/-- The column-coercion loop of lines 79-83. Because
`pd.to_numeric(..., errors="ignore")` never raises on a parse failure, the
`except ValueError` branch of lines 82-83 is unreachable, so the loop never
appends a log message. -/
def coerceLoop (cols : List (List String)) : List (List ColVal) × List LogMsg :=
  cols.foldl (fun st col => (st.1 ++ [to_numeric_ignore col], st.2)) ([], [])

/-- Number of columns of a pandas DataFrame built from a list of rows:
the maximum row width. -/
def ncolsOf (rows : List Row) : Nat :=
  rows.foldl (fun m r => max m r.length) 0

/-- Column-major view of the data rows (ragged rows padded, as pandas pads
missing cells when building a DataFrame from a list of lists). -/
def colsOf (rows : List Row) : List (List String) :=
  (List.range (ncolsOf rows)).map (fun j => rows.map (fun r => r.getD j ""))

/-- Row-major view of the typed columns, as serialized by `to_excel`. -/
def rowsOf (cols : List (List ColVal)) (nrows : Nat) : List (List ColVal) :=
  (List.range nrows).map (fun i => cols.map (fun c => c.getD i (ColVal.str "")))

/-- The in-memory DataFrame as it stands right before `to_excel`:
its column labels (when given) and its typed data rows. -/
structure DataFrameOut where
  headers : Option Row
  ncols : Nat
  data : List (List ColVal)
deriving DecidableEq, Repr

/-- The typed data rows obtained from the raw data rows: split into columns,
coerce each column, recombine into rows. -/
def dfData (rows : List Row) : List (List ColVal) :=
  rowsOf (coerceLoop (colsOf rows)).1 rows.length

/-- The DataFrame built at lines 73-83 from the accumulated table when
`pd.DataFrame` succeeds: `pd.DataFrame(all_tables[1:],
columns=all_tables[0] if len(all_tables[0]) > 1 else None)` followed by the
per-column coercion loop. -/
def buildDataFrame (all_tables : Table) : DataFrameOut :=
  let hdr := all_tables.headD []
  { headers := if hdr.length > 1 then some hdr else none
  , ncols := ncolsOf (all_tables.drop 1)
  , data := dfData (all_tables.drop 1) }

/-- Modelled from pandas: `pd.DataFrame(data, columns=...)` raises
`ValueError` ("N columns passed, passed data had M columns") when column
labels are passed (here: the header row has more than one cell) and their
count differs from the data's width; with `columns=None` it never raises
and auto-generates ordinal labels. -/
def pdDataFrame (all_tables : Table) : Except String DataFrameOut :=
  if 1 < (all_tables.headD []).length ∧
      (all_tables.headD []).length ≠ ncolsOf (all_tables.drop 1) then
    Except.error (toString (all_tables.headD []).length ++
      " columns passed, passed data had " ++
      toString (ncolsOf (all_tables.drop 1)) ++ " columns")
  else
    Except.ok (buildDataFrame all_tables)

/-- Ordinal column labels `0, 1, ...` that pandas auto-generates when the
DataFrame is built with `columns=None`. -/
def ordinalLabels (n : Nat) : List String :=
  (List.range n).map (fun i => toString i)

/-- The single row of column labels that `to_excel` writes above the data:
the given header row, or pandas's auto-generated ordinal labels. -/
def writtenHeader (o : DataFrameOut) : Row :=
  match o.headers with
  | some h => h
  | none => ordinalLabels o.ncols

/-- The full sheet content written by `df.to_excel(excel_path, index=False)`:
one header row of column labels, then the data rows. -/
def writtenSheet (o : DataFrameOut) : List (List ColVal) :=
  (writtenHeader o).map ColVal.str :: o.data

/-- A filesystem side effect performed by `convert_pdf_to_excel`. -/
inductive FsEffect where
  | mkdir (d : String)
  | writeFile (p : String)
deriving DecidableEq, Repr

/-- Index of the last slash of a character list, when any. -/
def lastSlashIdx (cs : List Char) : Option Nat :=
  ((List.range cs.length).filter (fun i => cs.getD i ' ' = '/')).getLast?

/-- Leading part of the path up to and including its last slash
(`p[:p.rfind(sep) + 1]` of `posixpath.dirname`). -/
def headPart (cs : List Char) : List Char :=
  match lastSlashIdx cs with
  | none => []
  | some i => cs.take (i + 1)

/-- Trailing-slash stripping, `head.rstrip(sep)` of `posixpath.dirname`. -/
def stripTrailingSlashes (cs : List Char) : List Char :=
  (cs.reverse.dropWhile (fun c => c = '/')).reverse

/-- Modelled from CPython `posixpath.dirname`: everything up to the last
slash, with trailing slashes stripped unless the result is all slashes. -/
def dirnameChars (cs : List Char) : List Char :=
  if ¬(headPart cs).isEmpty ∧ (headPart cs).any (fun c => c ≠ '/')
  then stripTrailingSlashes (headPart cs)
  else headPart cs

/-- Modelled from CPython `posixpath.dirname`, on strings. -/
def dirname (p : String) : String :=
  String.mk (dirnameChars p.data)

/-- Modelled from Python: `os.makedirs(d, exist_ok=True)` raises
`FileNotFoundError` when `d` is the empty string (so `exist_ok` does not
help), whose `str` renders with the quoted filename; for a non-empty `d`
the filesystem environment decides. -/
def makedirs (d : String) (envr : Except String Unit) : Except String Unit :=
  if d = "" then Except.error "[Errno 2] No such file or directory: ''" else envr

/-- The environment one call of `convert_pdf_to_excel` runs against: what
each external call (filesystem, pdfplumber, pandas writer) answers. -/
structure ConvertEnv where
  pdf_path : String
  excel_path : String
  /-- What `os.path.exists(pdf_path)` returns. -/
  inputExists : Bool
  /-- What `pdfplumber.open` plus the per-page `extract_table` calls yield:
  an exception, or the list of per-page extraction outcomes in page order. -/
  openResult : Except String (List ExtractResult)
  /-- What `os.makedirs` answers for a non-empty directory name. -/
  mkdirResult : Except String Unit
  /-- What `df.to_excel` answers. -/
  writeResult : Except String Unit
deriving Repr

/-- The observable outcome of one call of `convert_pdf_to_excel`: the
returned boolean, the log lines, the filesystem effects performed, and the
DataFrame written (when any). -/
structure ConvertResult where
  ret : Bool
  logs : List LogMsg
  effects : List FsEffect
  output : Option DataFrameOut
deriving Repr

/-- Embedding of `PDFToExcelConverter.convert_pdf_to_excel` (lines 36-93):
existence check, page loop with accumulation, usable-table check, DataFrame
construction with column coercion, directory creation, serialization; the
top-level `except Exception` turns any raised error into a `False` return
with an error log. -/
def convert_pdf_to_excel (env : ConvertEnv) : ConvertResult :=
  if env.inputExists = false then
    { ret := false
    , logs := [⟨.error, "PDF file not found: " ++ env.pdf_path⟩]
    , effects := []
    , output := none }
  else
    match env.openResult with
    | .error e =>
        { ret := false
        , logs := [⟨.error, "Conversion failed: " ++ e⟩]
        , effects := []
        , output := none }
    | .ok pages =>
        let plogs := pageWarnings pages
        let all_tables := accumTables pages
        if all_tables.isEmpty ∨ all_tables.length ≤ 1 then
          { ret := false
          , logs := plogs ++ [⟨.warning, "No valid table data found in PDF"⟩]
          , effects := []
          , output := none }
        else
          match pdDataFrame all_tables with
          | .error e =>
              { ret := false
              , logs := plogs ++ [⟨.error, "Conversion failed: " ++ e⟩]
              , effects := []
              , output := none }
          | .ok df =>
            let clogs := (coerceLoop (colsOf (all_tables.drop 1))).2
            match makedirs (dirname env.excel_path) env.mkdirResult with
            | .error e =>
                { ret := false
                , logs := plogs ++ clogs ++ [⟨.error, "Conversion failed: " ++ e⟩]
                , effects := []
                , output := none }
            | .ok _ =>
                match env.writeResult with
                | .error e =>
                    { ret := false
                    , logs := plogs ++ clogs ++ [⟨.error, "Conversion failed: " ++ e⟩]
                    , effects := [FsEffect.mkdir (dirname env.excel_path)]
                    , output := none }
                | .ok _ =>
                    { ret := true
                    , logs := plogs ++ clogs ++
                        [⟨.info, "Successfully converted to: " ++ env.excel_path⟩]
                    , effects := [FsEffect.mkdir (dirname env.excel_path),
                                  FsEffect.writeFile env.excel_path]
                    , output := some df }

/-- Spec-side description of the accumulated table: the first fragment
verbatim, then every later fragment with its own first row removed. -/
def stitched (frags : List Table) : Table :=
  match frags with
  | [] => []
  | f :: rest => f ++ (rest.map (List.drop 1)).flatten

/-- A benign environment: the input exists, the given pages are extracted,
and the filesystem cooperates. -/
def okEnv (pages : List ExtractResult) : ConvertEnv :=
  { pdf_path := "a.pdf"
  , excel_path := "out/a.xlsx"
  , inputExists := true
  , openResult := .ok pages
  , mkdirResult := .ok ()
  , writeResult := .ok () }

theorem foldl_accumStep_nonempty (frags : List (Option Table)) :
    ∀ acc : Table, acc ≠ [] →
      frags.foldl accumStep acc =
        acc ++ (((frags.filterMap id).map (List.drop 1)).flatten) := by
  induction frags with
  | nil => intro acc _; simp
  | cons f rest ih =>
    intro acc hacc
    cases f with
    | none =>
        simpa [accumStep] using ih acc hacc
    | some t =>
        by_cases ht : t.isEmpty
        · have ht' : t = [] := List.isEmpty_iff.mp ht
          have := ih acc hacc
          simp [List.foldl_cons, accumStep, ht, ht', this]
        · have hne : acc.isEmpty = false := by
            simp [List.isEmpty_iff, hacc]
          have hstep : accumStep acc (some t) = acc ++ t.drop 1 := by
            simp [accumStep, ht, hne]
          have hacc' : acc ++ t.drop 1 ≠ [] := by
            simp [hacc]
          calc (some t :: rest).foldl accumStep acc
              = rest.foldl accumStep (acc ++ t.drop 1) := by
                rw [List.foldl_cons, hstep]
            _ = (acc ++ t.drop 1) ++
                  (((rest.filterMap id).map (List.drop 1)).flatten) := ih _ hacc'
            _ = acc ++ ((((some t :: rest).filterMap id).map (List.drop 1)).flatten) := by
                simp [List.filterMap_cons]

theorem accum_eq_stitched (frags : List (Option Table))
    (h : ∀ t, some t ∈ frags → t ≠ []) :
    frags.foldl accumStep [] = stitched (frags.filterMap id) := by
  induction frags with
  | nil => rfl
  | cons f rest ih =>
    cases f with
    | none =>
        have := ih (fun t ht => h t (by simp [ht]))
        simpa [accumStep, List.filterMap_cons] using this
    | some t =>
        have ht : t ≠ [] := h t (by simp)
        have ht' : t.isEmpty = false := by simp [List.isEmpty_iff, ht]
        have hstep : accumStep [] (some t) = t := by
          simp [accumStep, ht']
        calc (some t :: rest).foldl accumStep []
            = rest.foldl accumStep t := by simp [List.foldl_cons, hstep]
          _ = t ++ (((rest.filterMap id).map (List.drop 1)).flatten) :=
              foldl_accumStep_nonempty rest t ht
          _ = stitched ((some t :: rest).filterMap id) := by
              simp [stitched, List.filterMap_cons]

theorem pageFragments_nonempty (pages : List ExtractResult) :
    ∀ t, some t ∈ pageFragments pages → t ≠ [] := by
  intro t ht
  simp only [pageFragments, List.mem_map] at ht
  obtain ⟨p, _, he⟩ := ht
  match p with
  | .ok none => simp [extract_table_from_page] at he
  | .ok (some tab) =>
      by_cases h : tab.isEmpty
      · simp [extract_table_from_page, h] at he
      · simp only [extract_table_from_page, h, if_false] at he
        have : tab = t := by simpa using he
        subst this
        exact fun hnil => by simp [hnil] at h
  | .err m => simp [extract_table_from_page] at he

theorem accumTables_eq_stitched (pages : List ExtractResult) :
    accumTables pages = stitched ((pageFragments pages).filterMap id) :=
  accum_eq_stitched _ (pageFragments_nonempty pages)

/-- C1: the accumulated table is the first non-absent fragment verbatim,
followed, for each later non-absent fragment in page order, by that
fragment's rows with its own first row unconditionally removed. -/
theorem accum_first_verbatim_later_tails (pages : List ExtractResult) :
    accumTables pages = stitched ((pageFragments pages).filterMap id) :=
  accumTables_eq_stitched pages

theorem coerce_foldl (cols : List (List String)) :
    ∀ a : List (List ColVal), ∀ l : List LogMsg,
      cols.foldl (fun st col => (st.1 ++ [to_numeric_ignore col], st.2)) (a, l) =
        (a ++ cols.map to_numeric_ignore, l) := by
  induction cols with
  | nil => intro a l; simp
  | cons c rest ih => intro a l; simp [List.foldl_cons, ih]

theorem coerceLoop_eq (cols : List (List String)) :
    coerceLoop cols = (cols.map to_numeric_ignore, []) := by
  simpa [coerceLoop] using coerce_foldl cols [] []

theorem makedirs_ok_iff (d : String) (r : Except String Unit) :
    makedirs d r = .ok () ↔ d ≠ "" ∧ r = .ok () := by
  unfold makedirs
  by_cases h : d = "" <;> simp [h]

theorem convert_not_exists (env : ConvertEnv) (h : env.inputExists = false) :
    convert_pdf_to_excel env =
      { ret := false
      , logs := [⟨.error, "PDF file not found: " ++ env.pdf_path⟩]
      , effects := [], output := none } := by
  unfold convert_pdf_to_excel
  simp [h]

theorem convert_open_error (env : ConvertEnv) (e : String)
    (hIn : env.inputExists = true) (h : env.openResult = .error e) :
    convert_pdf_to_excel env =
      { ret := false
      , logs := [⟨.error, "Conversion failed: " ++ e⟩]
      , effects := [], output := none } := by
  unfold convert_pdf_to_excel
  simp [hIn, h]

theorem convert_no_usable (env : ConvertEnv) (pages : List ExtractResult)
    (hIn : env.inputExists = true) (hOpen : env.openResult = .ok pages)
    (hLen : (accumTables pages).length ≤ 1) :
    convert_pdf_to_excel env =
      { ret := false
      , logs := pageWarnings pages ++ [⟨.warning, "No valid table data found in PDF"⟩]
      , effects := [], output := none } := by
  unfold convert_pdf_to_excel
  simp [hIn, hOpen, hLen]

theorem pdDataFrame_ok_of_compat (t : Table)
    (h : ¬(1 < (t.headD []).length ∧ (t.headD []).length ≠ ncolsOf (t.drop 1))) :
    pdDataFrame t = Except.ok (buildDataFrame t) := by
  unfold pdDataFrame
  rw [if_neg h]

theorem pdDataFrame_ok (t : Table) (o : DataFrameOut)
    (h : pdDataFrame t = Except.ok o) :
    o = buildDataFrame t ∧
      ¬(1 < (t.headD []).length ∧ (t.headD []).length ≠ ncolsOf (t.drop 1)) := by
  unfold pdDataFrame at h
  by_cases hc : 1 < (t.headD []).length ∧ (t.headD []).length ≠ ncolsOf (t.drop 1)
  · rw [if_pos hc] at h
    exact absurd h (by simp)
  · rw [if_neg hc] at h
    exact ⟨by simpa using h.symm, hc⟩

theorem convert_df_error (env : ConvertEnv) (pages : List ExtractResult) (e : String)
    (hIn : env.inputExists = true) (hOpen : env.openResult = .ok pages)
    (hLen : 2 ≤ (accumTables pages).length)
    (hDf : pdDataFrame (accumTables pages) = Except.error e) :
    convert_pdf_to_excel env =
      { ret := false
      , logs := pageWarnings pages ++ [⟨.error, "Conversion failed: " ++ e⟩]
      , effects := [], output := none } := by
  unfold convert_pdf_to_excel
  have h0 : ¬(accumTables pages).isEmpty := by
    rw [List.isEmpty_iff]
    intro hh
    rw [hh] at hLen
    simp at hLen
  have h1 : ¬((accumTables pages).length ≤ 1) := by omega
  simp [hIn, hOpen, h0, h1, hDf]

theorem convert_mkdir_error (env : ConvertEnv) (pages : List ExtractResult)
    (df : DataFrameOut) (e : String)
    (hIn : env.inputExists = true) (hOpen : env.openResult = .ok pages)
    (hLen : 2 ≤ (accumTables pages).length)
    (hDf : pdDataFrame (accumTables pages) = Except.ok df)
    (hMk : makedirs (dirname env.excel_path) env.mkdirResult = .error e) :
    convert_pdf_to_excel env =
      { ret := false
      , logs := pageWarnings pages ++ (coerceLoop (colsOf ((accumTables pages).drop 1))).2 ++
          [⟨.error, "Conversion failed: " ++ e⟩]
      , effects := [], output := none } := by
  unfold convert_pdf_to_excel
  have h0 : ¬(accumTables pages).isEmpty := by
    rw [List.isEmpty_iff]
    intro hh
    rw [hh] at hLen
    simp at hLen
  have h1 : ¬((accumTables pages).length ≤ 1) := by omega
  simp [hIn, hOpen, h0, h1, hDf, hMk]

theorem convert_write_error (env : ConvertEnv) (pages : List ExtractResult)
    (df : DataFrameOut) (e : String)
    (hIn : env.inputExists = true) (hOpen : env.openResult = .ok pages)
    (hLen : 2 ≤ (accumTables pages).length)
    (hDf : pdDataFrame (accumTables pages) = Except.ok df)
    (hMk : makedirs (dirname env.excel_path) env.mkdirResult = .ok ())
    (hWr : env.writeResult = .error e) :
    convert_pdf_to_excel env =
      { ret := false
      , logs := pageWarnings pages ++ (coerceLoop (colsOf ((accumTables pages).drop 1))).2 ++
          [⟨.error, "Conversion failed: " ++ e⟩]
      , effects := [FsEffect.mkdir (dirname env.excel_path)]
      , output := none } := by
  unfold convert_pdf_to_excel
  have h0 : ¬(accumTables pages).isEmpty := by
    rw [List.isEmpty_iff]
    intro hh
    rw [hh] at hLen
    simp at hLen
  have h1 : ¬((accumTables pages).length ≤ 1) := by omega
  simp [hIn, hOpen, h0, h1, hDf, hMk, hWr]

theorem convert_success (env : ConvertEnv) (pages : List ExtractResult)
    (df : DataFrameOut)
    (hIn : env.inputExists = true) (hOpen : env.openResult = .ok pages)
    (hLen : 2 ≤ (accumTables pages).length)
    (hDf : pdDataFrame (accumTables pages) = Except.ok df)
    (hMk : makedirs (dirname env.excel_path) env.mkdirResult = .ok ())
    (hWr : env.writeResult = .ok ()) :
    convert_pdf_to_excel env =
      { ret := true
      , logs := pageWarnings pages ++ (coerceLoop (colsOf ((accumTables pages).drop 1))).2 ++
          [⟨.info, "Successfully converted to: " ++ env.excel_path⟩]
      , effects := [FsEffect.mkdir (dirname env.excel_path),
                    FsEffect.writeFile env.excel_path]
      , output := some df } := by
  unfold convert_pdf_to_excel
  have h0 : ¬(accumTables pages).isEmpty := by
    rw [List.isEmpty_iff]
    intro hh
    rw [hh] at hLen
    simp at hLen
  have h1 : ¬((accumTables pages).length ≤ 1) := by omega
  simp [hIn, hOpen, h0, h1, hDf, hMk, hWr]

theorem convert_ret_iff (env : ConvertEnv) :
    (convert_pdf_to_excel env).ret = true ↔
      (env.inputExists = true ∧
       ∃ pages, env.openResult = Except.ok pages ∧
         2 ≤ (accumTables pages).length ∧
         ¬(1 < ((accumTables pages).headD []).length ∧
           ((accumTables pages).headD []).length ≠ ncolsOf ((accumTables pages).drop 1)) ∧
         dirname env.excel_path ≠ "" ∧
         env.mkdirResult = Except.ok () ∧
         env.writeResult = Except.ok ()) := by
  rcases hIn : env.inputExists with _ | _
  · rw [convert_not_exists env hIn]
    simp
  · rcases hOpen : env.openResult with e | pages
    · rw [convert_open_error env e hIn hOpen]
      simp
    · by_cases hLen : 2 ≤ (accumTables pages).length
      · rcases hDf : pdDataFrame (accumTables pages) with e | df
        · rw [convert_df_error env pages e hIn hOpen hLen hDf]
          constructor
          · intro hh
            exact absurd hh (by simp)
          · rintro ⟨-, p, hp, -, hcompat, -⟩
            obtain rfl : p = pages := by
              simpa using hp.symm
            rw [pdDataFrame_ok_of_compat _ hcompat] at hDf
            exact Except.noConfusion hDf
        · obtain ⟨rfl, hcompat⟩ := pdDataFrame_ok _ _ hDf
          rcases hMk : makedirs (dirname env.excel_path) env.mkdirResult with e | u
          · rw [convert_mkdir_error env pages _ e hIn hOpen hLen hDf hMk]
            constructor
            · intro hh
              exact absurd hh (by simp)
            · rintro ⟨-, p, hp, -, -, hd, hmk, -⟩
              unfold makedirs at hMk
              rw [if_neg hd, hmk] at hMk
              exact Except.noConfusion hMk
          · cases u
            rcases hWr : env.writeResult with e | u
            · rw [convert_write_error env pages _ e hIn hOpen hLen hDf hMk hWr]
              constructor
              · intro hh
                exact absurd hh (by simp)
              · rintro ⟨-, p, hp, -, -, -, -, hw⟩
                exact Except.noConfusion hw
            · cases u
              rw [convert_success env pages _ hIn hOpen hLen hDf hMk hWr]
              obtain ⟨hd, hmk⟩ := (makedirs_ok_iff _ _).mp hMk
              constructor
              · intro _
                exact ⟨rfl, pages, rfl, hLen, hcompat, hd, hmk, rfl⟩
              · intro _
                rfl
      · have hLen' : (accumTables pages).length ≤ 1 := by omega
        rw [convert_no_usable env pages hIn hOpen hLen']
        constructor
        · intro hh
          exact absurd hh (by simp)
        · rintro ⟨-, p, hp, h2, -⟩
          obtain rfl : p = pages := by
            simpa using hp.symm
          exact absurd h2 hLen

theorem convert_output_some (env : ConvertEnv) (o : DataFrameOut)
    (h : (convert_pdf_to_excel env).output = some o) :
    env.inputExists = true ∧
      ∃ pages, env.openResult = Except.ok pages ∧
        2 ≤ (accumTables pages).length ∧
        pdDataFrame (accumTables pages) = Except.ok o := by
  rcases hIn : env.inputExists with _ | _
  · rw [convert_not_exists env hIn] at h
    exact absurd h (by simp)
  · rcases hOpen : env.openResult with e | pages
    · rw [convert_open_error env e hIn hOpen] at h
      exact absurd h (by simp)
    · by_cases hLen : 2 ≤ (accumTables pages).length
      · rcases hDf : pdDataFrame (accumTables pages) with e | df
        · rw [convert_df_error env pages e hIn hOpen hLen hDf] at h
          exact absurd h (by simp)
        · rcases hMk : makedirs (dirname env.excel_path) env.mkdirResult with e | u
          · rw [convert_mkdir_error env pages df e hIn hOpen hLen hDf hMk] at h
            exact absurd h (by simp)
          · cases u
            rcases hWr : env.writeResult with e | u
            · rw [convert_write_error env pages df e hIn hOpen hLen hDf hMk hWr] at h
              exact absurd h (by simp)
            · cases u
              rw [convert_success env pages df hIn hOpen hLen hDf hMk hWr] at h
              refine ⟨rfl, pages, rfl, hLen, ?_⟩
              obtain rfl : df = o := by
                simpa using h
              exact hDf
      · have hLen' : (accumTables pages).length ≤ 1 := by omega
        rw [convert_no_usable env pages hIn hOpen hLen'] at h
        exact absurd h (by simp)

theorem dirname_no_slash (p : String) (h : ∀ c ∈ p.data, c ≠ '/') :
    dirname p = "" := by
  have hfil : lastSlashIdx p.data = none := by
    unfold lastSlashIdx
    have : (List.range p.data.length).filter (fun i => p.data.getD i ' ' = '/') = [] := by
      rw [List.filter_eq_nil_iff]
      intro i hi
      have hi' : i < p.data.length := List.mem_range.mp hi
      have hmem : p.data.getD i ' ' ∈ p.data := by
        rw [List.getD_eq_getElem p.data ' ' hi']
        exact List.getElem_mem hi'
      simpa using h _ hmem
    rw [this]
    rfl
  have hhead : headPart p.data = [] := by
    unfold headPart
    rw [hfil]
  unfold dirname dirnameChars
  rw [hhead]
  simp

/-- C5: when the input exists and the pages are processed but the
accumulated table has at most one row (in particular when no page yields a
table), convert returns `False`, logs a warning, performs no filesystem
effect, and writes nothing. -/
theorem no_usable_table_fails (env : ConvertEnv) (pages : List ExtractResult)
    (hIn : env.inputExists = true) (hOpen : env.openResult = Except.ok pages)
    (hLen : (accumTables pages).length ≤ 1) :
    (convert_pdf_to_excel env).ret = false ∧
    (⟨.warning, "No valid table data found in PDF"⟩ : LogMsg) ∈
      (convert_pdf_to_excel env).logs ∧
    (convert_pdf_to_excel env).effects = [] ∧
    (convert_pdf_to_excel env).output = none := by
  rw [convert_no_usable env pages hIn hOpen hLen]
  exact ⟨rfl, by simp, rfl, rfl⟩

theorem no_usable_table_fails_w :
    (convert_pdf_to_excel (okEnv [])).ret = false ∧
    (⟨.warning, "No valid table data found in PDF"⟩ : LogMsg) ∈
      (convert_pdf_to_excel (okEnv [])).logs ∧
    (convert_pdf_to_excel (okEnv [])).effects = [] ∧
    (convert_pdf_to_excel (okEnv [])).output = none :=
  no_usable_table_fails (okEnv []) [] rfl rfl (by decide)

/-- C7: convert always returns a boolean and never propagates an error: it
returns `True` exactly when every step succeeds — input exists, open
succeeds, a usable table accumulates, `pd.DataFrame` accepts the
header/width combination, the output directory name is non-empty, and
mkdir and the file write succeed; a missing input or an error raised while
opening is logged as an error and reported as `False`; an error from
directory creation or serialization also yields `False`. -/
theorem convert_boolean_contract (env : ConvertEnv) :
    ((convert_pdf_to_excel env).ret = true ↔
      (env.inputExists = true ∧
       ∃ pages, env.openResult = Except.ok pages ∧
         2 ≤ (accumTables pages).length ∧
         ¬(1 < ((accumTables pages).headD []).length ∧
           ((accumTables pages).headD []).length ≠ ncolsOf ((accumTables pages).drop 1)) ∧
         dirname env.excel_path ≠ "" ∧
         env.mkdirResult = Except.ok () ∧
         env.writeResult = Except.ok ())) ∧
    ((convert_pdf_to_excel env).ret = true →
      FsEffect.writeFile env.excel_path ∈ (convert_pdf_to_excel env).effects) ∧
    (env.inputExists = false →
      (convert_pdf_to_excel env).ret = false ∧
      (⟨.error, "PDF file not found: " ++ env.pdf_path⟩ : LogMsg) ∈
        (convert_pdf_to_excel env).logs) ∧
    (∀ e, env.inputExists = true → env.openResult = Except.error e →
      (convert_pdf_to_excel env).ret = false ∧
      (⟨.error, "Conversion failed: " ++ e⟩ : LogMsg) ∈
        (convert_pdf_to_excel env).logs) ∧
    (∀ e, env.writeResult = Except.error e → (convert_pdf_to_excel env).ret = false) ∧
    (∀ e, env.mkdirResult = Except.error e → (convert_pdf_to_excel env).ret = false) := by
  refine ⟨convert_ret_iff env, ?_, ?_, ?_, ?_, ?_⟩
  · intro h
    obtain ⟨hIn, pages, hOpen, hLen, hcompat, hd, hmk, hwr⟩ := (convert_ret_iff env).mp h
    have hDf : pdDataFrame (accumTables pages) =
        Except.ok (buildDataFrame (accumTables pages)) :=
      pdDataFrame_ok_of_compat _ hcompat
    have hMk : makedirs (dirname env.excel_path) env.mkdirResult = Except.ok () :=
      (makedirs_ok_iff _ _).mpr ⟨hd, hmk⟩
    rw [convert_success env pages _ hIn hOpen hLen hDf hMk hwr]
    simp
  · intro h
    rw [convert_not_exists env h]
    exact ⟨rfl, by simp⟩
  · intro e hIn hOpen
    rw [convert_open_error env e hIn hOpen]
    exact ⟨rfl, by simp⟩
  · intro e hwr
    rcases hret : (convert_pdf_to_excel env).ret with _ | _
    · rfl
    · obtain ⟨-, p, -, -, -, -, -, hw⟩ := (convert_ret_iff env).mp hret
      rw [hwr] at hw
      exact Except.noConfusion hw
  · intro e hmk
    rcases hret : (convert_pdf_to_excel env).ret with _ | _
    · rfl
    · obtain ⟨-, p, -, -, -, -, hm, -⟩ := (convert_ret_iff env).mp hret
      rw [hmk] at hm
      exact Except.noConfusion hm

theorem convert_boolean_contract_w :
    (convert_pdf_to_excel { okEnv [] with inputExists := false }).ret = false :=
  ((convert_boolean_contract { okEnv [] with inputExists := false }).2.2.1 rfl).1

/-- C8: the tabular content produced by convert is a function of the
extracted page contents alone: two runs whose PDFs extract identically
produce identical written tables (headers, rows, column typing). -/
theorem convert_output_deterministic (env1 env2 : ConvertEnv)
    (h : env1.openResult = env2.openResult)
    (o1 o2 : DataFrameOut)
    (h1 : (convert_pdf_to_excel env1).output = some o1)
    (h2 : (convert_pdf_to_excel env2).output = some o2) :
    o1 = o2 := by
  obtain ⟨-, p1, hp1, -, e1⟩ := convert_output_some env1 o1 h1
  obtain ⟨-, p2, hp2, -, e2⟩ := convert_output_some env2 o2 h2
  rw [h, hp2] at hp1
  obtain rfl : p1 = p2 := by
    simpa using hp1.symm
  rw [e1] at e2
  simpa using e2

theorem convert_output_deterministic_w :
    ({ headers := some ["a", "b"], ncols := 2
     , data := [[ColVal.num 1, ColVal.num 2], [ColVal.num 3, ColVal.num 4]] } :
      DataFrameOut) =
    { headers := some ["a", "b"], ncols := 2
    , data := [[ColVal.num 1, ColVal.num 2], [ColVal.num 3, ColVal.num 4]] } :=
  convert_output_deterministic
    (okEnv [.ok (some [["a", "b"], ["1", "2"], ["3", "4"]])])
    { okEnv [.ok (some [["a", "b"], ["1", "2"], ["3", "4"]])] with pdf_path := "b.pdf" }
    rfl _ _ (by decide) (by decide)

/-- C9: the two early failure returns (missing input; no usable accumulated
table) happen before any directory creation or file write, so they perform
no filesystem effect. -/
theorem early_failures_touch_no_fs (env : ConvertEnv) :
    (env.inputExists = false → (convert_pdf_to_excel env).effects = []) ∧
    (∀ pages, env.inputExists = true → env.openResult = Except.ok pages →
      (accumTables pages).length ≤ 1 → (convert_pdf_to_excel env).effects = []) := by
  constructor
  · intro h
    rw [convert_not_exists env h]
  · intro pages hIn hOpen hLen
    rw [convert_no_usable env pages hIn hOpen hLen]

theorem early_failures_touch_no_fs_w :
    (convert_pdf_to_excel { okEnv [] with inputExists := false }).effects = [] :=
  (early_failures_touch_no_fs { okEnv [] with inputExists := false }).1 rfl

/-- C10: when the output path has no directory component, the unconditional
`os.makedirs(os.path.dirname(excel_path), exist_ok=True)` raises on the
empty directory name, the top-level handler catches it, and convert returns
`False` — even when the input exists and a usable table was accumulated;
when the run also gets past `pd.DataFrame` (header/data widths compatible),
the caught `FileNotFoundError` is logged as an error with Python's
rendering of the quoted empty filename. -/
theorem bare_filename_fails (env : ConvertEnv)
    (h : ∀ c ∈ env.excel_path.data, c ≠ '/') :
    (convert_pdf_to_excel env).ret = false ∧
    (∀ pages, env.inputExists = true → env.openResult = Except.ok pages →
      2 ≤ (accumTables pages).length →
      ¬(1 < ((accumTables pages).headD []).length ∧
        ((accumTables pages).headD []).length ≠ ncolsOf ((accumTables pages).drop 1)) →
      (⟨.error, "Conversion failed: [Errno 2] No such file or directory: ''"⟩ : LogMsg) ∈
        (convert_pdf_to_excel env).logs) := by
  have hd : dirname env.excel_path = "" := dirname_no_slash _ h
  constructor
  · rcases hret : (convert_pdf_to_excel env).ret with _ | _
    · rfl
    · obtain ⟨-, p, -, -, -, hd', -⟩ := (convert_ret_iff env).mp hret
      exact absurd hd hd'
  · intro pages hIn hOpen hLen hcompat
    have hDf : pdDataFrame (accumTables pages) =
        Except.ok (buildDataFrame (accumTables pages)) :=
      pdDataFrame_ok_of_compat _ hcompat
    have hMk : makedirs (dirname env.excel_path) env.mkdirResult =
        Except.error "[Errno 2] No such file or directory: ''" := by
      rw [hd]
      unfold makedirs
      rw [if_pos rfl]
    rw [convert_mkdir_error env pages _ _ hIn hOpen hLen hDf hMk]
    simp

theorem bare_filename_fails_w :
    (convert_pdf_to_excel
      { okEnv [.ok (some [["a", "b"], ["1", "2"]])] with excel_path := "a.xlsx" }).ret
      = false :=
  (bare_filename_fails
    { okEnv [.ok (some [["a", "b"], ["1", "2"]])] with excel_path := "a.xlsx" }
    (by decide)).1

/-- C6: a page's extraction returns the table exactly when extraction
succeeded with at least one row; it returns absent when no table was found,
the table was empty, or extraction raised — and in the raising case a
warning is logged and nothing propagates, so the page's failure leaves all
other pages' fragments (and the accumulated table) unchanged. -/
theorem page_extraction_isolated :
    (∀ r : ExtractResult, ∀ t : Table,
      ((extract_table_from_page r).1 = some t ↔ (r = .ok (some t) ∧ t ≠ []))) ∧
    (∀ r : ExtractResult,
      ((extract_table_from_page r).1 = none ↔
        (r = .ok none ∨ r = .ok (some []) ∨ ∃ m, r = .err m))) ∧
    (∀ m : String,
      extract_table_from_page (.err m) =
        (none, [⟨.warning, "Could not extract table from page: " ++ m⟩])) ∧
    (∀ xs ys : List ExtractResult, ∀ m : String,
      pageFragments (xs ++ .err m :: ys) = pageFragments xs ++ none :: pageFragments ys ∧
      accumTables (xs ++ .err m :: ys) = accumTables (xs ++ ys)) := by
  have hmap : ∀ xs ys : List ExtractResult,
      pageFragments (xs ++ ys) = pageFragments xs ++ pageFragments ys := by
    intro xs ys
    simp [pageFragments]
  refine ⟨?_, ?_, fun m => rfl, ?_⟩
  · intro r t
    cases r with
    | ok o =>
      cases o with
      | none => simp [extract_table_from_page]
      | some tab =>
        by_cases htab : tab.isEmpty
        · obtain rfl : tab = [] := List.isEmpty_iff.mp htab
          simp [extract_table_from_page]
        · have htab' : tab ≠ [] := by
            intro hh
            rw [hh] at htab
            simp at htab
          simp only [extract_table_from_page, htab, if_false]
          constructor
          · intro hh
            obtain rfl : tab = t := by simpa using hh
            exact ⟨rfl, htab'⟩
          · rintro ⟨hh, -⟩
            obtain rfl : tab = t := by simpa using hh
            rfl
    | err m => simp [extract_table_from_page]
  · intro r
    cases r with
    | ok o =>
      cases o with
      | none => simp [extract_table_from_page]
      | some tab =>
        by_cases htab : tab.isEmpty
        · obtain rfl : tab = [] := List.isEmpty_iff.mp htab
          simp [extract_table_from_page]
        · have htab' : tab ≠ [] := by
            intro hh
            rw [hh] at htab
            simp at htab
          simp [extract_table_from_page, htab, htab']
    | err m => simp [extract_table_from_page]
  · intro xs ys m
    have h1 : pageFragments (xs ++ .err m :: ys) =
        pageFragments xs ++ none :: pageFragments ys := by
      rw [hmap]
      simp [pageFragments, extract_table_from_page]
    refine ⟨h1, ?_⟩
    unfold accumTables
    rw [h1, hmap, List.foldl_append, List.foldl_append, List.foldl_cons]
    rfl

theorem buildDataFrame_headers (t : Table) :
    (buildDataFrame t).headers =
      if 1 < (t.headD []).length then some (t.headD []) else none := rfl

theorem buildDataFrame_data (t : Table) :
    (buildDataFrame t).data = dfData (t.drop 1) := rfl

theorem writtenSheet_length (o : DataFrameOut) :
    (writtenSheet o).length = o.data.length + 1 := by
  simp [writtenSheet]

/-- C4: when convert builds its DataFrame, the accumulated table's first row
becomes the column headers exactly when it has more than one cell; with at
most one cell the headers are absent and the written labels are the
auto-generated ordinals; in every case the data rows are built from the
accumulated table minus its first row. -/
theorem header_iff_multicell (env : ConvertEnv) (pages : List ExtractResult)
    (o : DataFrameOut)
    (hOpen : env.openResult = Except.ok pages)
    (h : (convert_pdf_to_excel env).output = some o) :
    (o.headers = some ((accumTables pages).headD []) ↔
      1 < ((accumTables pages).headD []).length) ∧
    (((accumTables pages).headD []).length ≤ 1 →
      o.headers = none ∧ writtenHeader o = ordinalLabels o.ncols) ∧
    o.data = dfData ((accumTables pages).drop 1) := by
  obtain ⟨-, pages', hOpen', hLen, hDf⟩ := convert_output_some env o h
  rw [hOpen] at hOpen'
  obtain rfl : pages = pages' := by simpa using hOpen'
  obtain ⟨rfl, -⟩ := pdDataFrame_ok _ _ hDf
  refine ⟨?_, ?_, rfl⟩
  · rw [buildDataFrame_headers]
    by_cases hh : 1 < ((accumTables pages).headD []).length
    · simp [hh]
    · simp [hh]
  · intro hle
    have hh : ¬1 < ((accumTables pages).headD []).length := by omega
    have h0 : (buildDataFrame (accumTables pages)).headers = none := by
      rw [buildDataFrame_headers, if_neg hh]
    refine ⟨h0, ?_⟩
    unfold writtenHeader
    rw [h0]

theorem header_iff_multicell_w :
    (({ headers := none, ncols := 1
      , data := [[ColVal.str "r1"], [ColVal.str "r2"]] } : DataFrameOut).headers =
        some ((accumTables [.ok (some [["only"], ["r1"], ["r2"]])]).headD []) ↔
      1 < ((accumTables [.ok (some [["only"], ["r1"], ["r2"]])]).headD []).length) ∧
    (((accumTables [.ok (some [["only"], ["r1"], ["r2"]])]).headD []).length ≤ 1 →
      ({ headers := none, ncols := 1
       , data := [[ColVal.str "r1"], [ColVal.str "r2"]] } : DataFrameOut).headers = none ∧
      writtenHeader { headers := none, ncols := 1
                    , data := [[ColVal.str "r1"], [ColVal.str "r2"]] } =
        ordinalLabels ({ headers := none, ncols := 1
                       , data := [[ColVal.str "r1"], [ColVal.str "r2"]] } : DataFrameOut).ncols) ∧
    ({ headers := none, ncols := 1
     , data := [[ColVal.str "r1"], [ColVal.str "r2"]] } : DataFrameOut).data =
      dfData ((accumTables [.ok (some [["only"], ["r1"], ["r2"]])]).drop 1) :=
  header_iff_multicell (okEnv [.ok (some [["only"], ["r1"], ["r2"]])])
    [.ok (some [["only"], ["r1"], ["r2"]])]
    { headers := none, ncols := 1, data := [[ColVal.str "r1"], [ColVal.str "r2"]] }
    rfl (by decide)

/-- C3 (amended): numeric coercion is independent and all-or-nothing per
column — a fully parseable column becomes numeric, a column with any
unparseable value keeps every original textual value — and a coercion
failure never raises and never aborts the conversion (convert's success
condition depends only on existence, extraction, row count, header/data
width and the filesystem, never on whether any cell parses); however the
failure is NOT logged: with `errors="ignore"` the `except ValueError`
branch is unreachable, so the coercion loop emits no log message at all. -/
theorem coercion_all_or_nothing (cols : List (List String)) :
    (coerceLoop cols).2 = [] ∧
    (coerceLoop cols).1 = cols.map to_numeric_ignore ∧
    (∀ col ∈ cols,
      ((∀ s ∈ col, (parseNum s).isSome) →
        to_numeric_ignore col = col.map (fun s => ColVal.num ((parseNum s).getD 0))) ∧
      ((∃ s ∈ col, parseNum s = none) →
        to_numeric_ignore col = col.map ColVal.str)) ∧
    (∀ env : ConvertEnv,
      ((convert_pdf_to_excel env).ret = true ↔
        (env.inputExists = true ∧
         ∃ pages, env.openResult = Except.ok pages ∧
           2 ≤ (accumTables pages).length ∧
           ¬(1 < ((accumTables pages).headD []).length ∧
             ((accumTables pages).headD []).length ≠ ncolsOf ((accumTables pages).drop 1)) ∧
           dirname env.excel_path ≠ "" ∧
           env.mkdirResult = Except.ok () ∧
           env.writeResult = Except.ok ()))) := by
  refine ⟨?_, ?_, ?_, fun env => convert_ret_iff env⟩
  · rw [coerceLoop_eq]
  · rw [coerceLoop_eq]
  · intro col _
    constructor
    · intro hall
      unfold to_numeric_ignore
      rw [if_pos (List.all_eq_true.mpr hall)]
    · intro hex
      have hne : ¬(col.all (fun s => (parseNum s).isSome) = true) := by
        rw [List.all_eq_true]
        intro hall
        obtain ⟨s, hs, hn⟩ := hex
        have hp := hall s hs
        rw [hn] at hp
        simp at hp
      unfold to_numeric_ignore
      rw [if_neg hne]

theorem coercion_all_or_nothing_w :
    to_numeric_ignore ["1", "x", "3"] =
      [ColVal.str "1", ColVal.str "x", ColVal.str "3"] :=
  ((coercion_all_or_nothing [["1", "x", "3"]]).2.2.1 ["1", "x", "3"] (by simp)).2
    ⟨"x", by simp, by decide⟩

/-- C3 (counterexample): one page whose table has a column that does not
fully parse as numeric — the column is written with its original textual
values and the conversion succeeds, but no warning (indeed no log line
other than the success message) is emitted, contradicting the claim that
the coercion failure is logged as a warning. -/
theorem coercion_no_warning_cex :
    (convert_pdf_to_excel (okEnv [.ok (some [["a", "b"], ["1", "x"], ["3", "y"]])])).output =
      some { headers := some ["a", "b"], ncols := 2
           , data := [[ColVal.num 1, ColVal.str "x"], [ColVal.num 3, ColVal.str "y"]] } ∧
    (∀ m ∈ (convert_pdf_to_excel (okEnv [.ok (some [["a", "b"], ["1", "x"], ["3", "y"]])])).logs,
      m.level ≠ LogLevel.warning) ∧
    (convert_pdf_to_excel (okEnv [.ok (some [["a", "b"], ["1", "x"], ["3", "y"]])])).ret = true := by
  decide

theorem filterMap_id_replicate_some (n : Nat) (t : Table) :
    (List.replicate n (some t)).filterMap id = List.replicate n t := by
  induction n with
  | zero => rfl
  | succ k ih => simp [List.replicate_succ, List.filterMap_cons, ih]

theorem flatten_replicate_length (n : Nat) (l : Table) :
    ((List.replicate n l).flatten).length = n * l.length := by
  induction n with
  | zero => simp
  | succ k ih =>
    simp only [List.replicate_succ, List.flatten_cons, List.length_append, ih]
    ring

theorem accumTables_replicate (N : Nat) (hdr : Row) (rows : List Row) (hN : 1 ≤ N) :
    accumTables (List.replicate N (.ok (some (hdr :: rows)))) =
      (hdr :: rows) ++ (List.replicate (N - 1) rows).flatten := by
  have hfrag : pageFragments (List.replicate N (.ok (some (hdr :: rows)))) =
      List.replicate N (some (hdr :: rows)) := by
    simp [pageFragments, extract_table_from_page]
  rw [accumTables_eq_stitched, hfrag, filterMap_id_replicate_some]
  obtain ⟨k, rfl⟩ : ∃ k, N = k + 1 := ⟨N - 1, by omega⟩
  simp [List.replicate_succ, stitched, List.map_replicate]

theorem dfData_length (rows : List Row) : (dfData rows).length = rows.length := by
  simp [dfData, rowsOf]

theorem ncolsOf_foldl (l : List Row) :
    ∀ a : Nat, l.foldl (fun m r => max m r.length) a = max a (ncolsOf l) := by
  induction l with
  | nil => intro a; simp [ncolsOf]
  | cons r t ih =>
    intro a
    show t.foldl (fun m r => max m r.length) (max a r.length) = max a (ncolsOf (r :: t))
    rw [ih (max a r.length)]
    have h2 : ncolsOf (r :: t) = max r.length (ncolsOf t) := by
      show t.foldl (fun m r => max m r.length) (max 0 r.length) = max r.length (ncolsOf t)
      rw [ih (max 0 r.length)]
      simp
    rw [h2, Nat.max_assoc]

theorem ncolsOf_append (l1 l2 : List Row) :
    ncolsOf (l1 ++ l2) = max (ncolsOf l1) (ncolsOf l2) := by
  show (l1 ++ l2).foldl (fun m r => max m r.length) 0 = max (ncolsOf l1) (ncolsOf l2)
  rw [List.foldl_append, ncolsOf_foldl]
  rfl

theorem ncolsOf_flatten_replicate_le (k : Nat) (rows : List Row) :
    ncolsOf ((List.replicate k rows).flatten) ≤ ncolsOf rows := by
  induction k with
  | zero => simp [ncolsOf]
  | succ n ih =>
    rw [List.replicate_succ, List.flatten_cons, ncolsOf_append]
    exact max_le (le_refl _) ih

theorem ncolsOf_rep_data (k : Nat) (rows : List Row) :
    ncolsOf (rows ++ (List.replicate k rows).flatten) = ncolsOf rows := by
  rw [ncolsOf_append]
  exact max_eq_left (ncolsOf_flatten_replicate_le k rows)

/-- C2 (amended): for a PDF of N pages each extracting the same table of
one header row plus M data rows, where the header row is width-consistent
with the data (more than one cell implies its cell count equals the data
rows' width — which pdfplumber's rectangular grid extraction guarantees),
convert writes a sheet of exactly one header row and exactly N*M data
rows. -/
theorem identical_pages_row_counts (N : Nat) (hdr : Row) (rows : List Row)
    (hN : 1 ≤ N) (hM : 1 ≤ rows.length)
    (hW : 1 < hdr.length → hdr.length = ncolsOf rows) :
    ∃ o, (convert_pdf_to_excel
            (okEnv (List.replicate N (.ok (some (hdr :: rows)))))).output = some o ∧
      o.data.length = N * rows.length ∧
      (writtenSheet o).length = N * rows.length + 1 ∧
      (convert_pdf_to_excel
        (okEnv (List.replicate N (.ok (some (hdr :: rows)))))).ret = true := by
  obtain ⟨k, rfl⟩ : ∃ k, N = k + 1 := ⟨N - 1, by omega⟩
  have hacc := accumTables_replicate (k + 1) hdr rows hN
  have hlen : (accumTables (List.replicate (k + 1) (.ok (some (hdr :: rows))))).length =
      (k + 1) * rows.length + 1 := by
    rw [hacc]
    simp [flatten_replicate_length]
    ring
  have hLen2 : 2 ≤ (accumTables (List.replicate (k + 1) (.ok (some (hdr :: rows))))).length := by
    rw [hlen]
    have : 1 * 1 ≤ (k + 1) * rows.length := Nat.mul_le_mul hN hM
    omega
  have hhead : (accumTables (List.replicate (k + 1) (.ok (some (hdr :: rows))))).headD [] =
      hdr := by
    rw [hacc]
    rfl
  have hdrop : (accumTables (List.replicate (k + 1) (.ok (some (hdr :: rows))))).drop 1 =
      rows ++ (List.replicate (k + 1 - 1) rows).flatten := by
    rw [hacc]
    rfl
  have hncols : ncolsOf ((accumTables (List.replicate (k + 1)
      (.ok (some (hdr :: rows))))).drop 1) = ncolsOf rows := by
    rw [hdrop]
    exact ncolsOf_rep_data _ _
  have hcompat : ¬(1 < ((accumTables (List.replicate (k + 1)
        (.ok (some (hdr :: rows))))).headD []).length ∧
      ((accumTables (List.replicate (k + 1)
        (.ok (some (hdr :: rows))))).headD []).length ≠
        ncolsOf ((accumTables (List.replicate (k + 1)
          (.ok (some (hdr :: rows))))).drop 1)) := by
    rw [hhead, hncols]
    rintro ⟨h1, h2⟩
    exact h2 (hW h1)
  have hDf : pdDataFrame (accumTables (List.replicate (k + 1) (.ok (some (hdr :: rows))))) =
      Except.ok (buildDataFrame (accumTables (List.replicate (k + 1)
        (.ok (some (hdr :: rows)))))) :=
    pdDataFrame_ok_of_compat _ hcompat
  have hdnm : dirname (okEnv (List.replicate (k + 1)
      (.ok (some (hdr :: rows))))).excel_path = "out" := by
    show dirname "out/a.xlsx" = "out"
    decide
  have hMk : makedirs (dirname (okEnv (List.replicate (k + 1)
      (.ok (some (hdr :: rows))))).excel_path)
      (okEnv (List.replicate (k + 1) (.ok (some (hdr :: rows))))).mkdirResult =
      Except.ok () := by
    refine (makedirs_ok_iff _ _).mpr ⟨?_, rfl⟩
    rw [hdnm]
    decide
  rw [convert_success _ (List.replicate (k + 1) (.ok (some (hdr :: rows)))) _
    rfl rfl hLen2 hDf hMk rfl]
  have hdata : (buildDataFrame (accumTables (List.replicate (k + 1)
      (.ok (some (hdr :: rows)))))).data.length = (k + 1) * rows.length := by
    rw [buildDataFrame_data, dfData_length, List.length_drop, hlen]
    simp
  refine ⟨buildDataFrame (accumTables (List.replicate (k + 1) (.ok (some (hdr :: rows))))),
    rfl, hdata, ?_, rfl⟩
  rw [writtenSheet_length, hdata]

theorem identical_pages_row_counts_w :
    ∃ o, (convert_pdf_to_excel
            (okEnv (List.replicate 2 (.ok (some (["h", "k"] :: [["1", "2"], ["3", "4"]])))))).output
            = some o ∧
      o.data.length = 2 * [["1", "2"], ["3", "4"]].length ∧
      (writtenSheet o).length = 2 * [["1", "2"], ["3", "4"]].length + 1 ∧
      (convert_pdf_to_excel
        (okEnv (List.replicate 2 (.ok (some (["h", "k"] :: [["1", "2"], ["3", "4"]])))))).ret
        = true :=
  identical_pages_row_counts 2 ["h", "k"] [["1", "2"], ["3", "4"]]
    (by decide) (by decide) (by decide)

/-- C2 (counterexample): one page whose "one header row plus one data row"
table has a 3-cell header over 2-cell data makes `pd.DataFrame` raise
(3 columns passed, data had 2), so convert logs the error, returns `False`
and produces no output table — refuting the claim's unconditional
one-header-plus-N*M-rows output. -/
theorem identical_pages_mismatch_cex :
    (convert_pdf_to_excel
      (okEnv (List.replicate 1 (.ok (some (["a", "b", "c"] :: [["1", "2"]])))))).output
      = none ∧
    (convert_pdf_to_excel
      (okEnv (List.replicate 1 (.ok (some (["a", "b", "c"] :: [["1", "2"]])))))).ret
      = false ∧
    (⟨.error, "Conversion failed: 3 columns passed, passed data had 2 columns"⟩ : LogMsg) ∈
      (convert_pdf_to_excel
        (okEnv (List.replicate 1 (.ok (some (["a", "b", "c"] :: [["1", "2"]])))))).logs := by
  decide

end PdfToExcel
